import Mathlib

/-!
Verification development for the fallback-directory selection script
(scripts/maint/updateFallbackDirs.py).  The Python source is shallowly
embedded below: pure string and arithmetic helpers become Lean functions,
per-relay state becomes a `Candidate` structure, and fallible code
(Python exceptions) becomes `Except String`.  Machine numbers are
modelled with `Int`/`Nat`/`ℚ`; Python 2 integer division is modelled with
floor division where the source divides two ints.
-/

deriving instance DecidableEq for Except

namespace UpdateFallbackDirs

/-! ## Top-level configuration constants (from the script header) -/

def OUTPUT_CANDIDATES : Bool := false

/-- `PERFORM_IPV4_DIRPORT_CHECKS = False if OUTPUT_CANDIDATES else True` -/
def PERFORM_IPV4_DIRPORT_CHECKS : Bool := if OUTPUT_CANDIDATES then false else true

/-- `PERFORM_IPV6_DIRPORT_CHECKS = False if OUTPUT_CANDIDATES else False` -/
def PERFORM_IPV6_DIRPORT_CHECKS : Bool := if OUTPUT_CANDIDATES then false else false

def INCLUDE_UNLISTED_ENTRIES : Bool := if OUTPUT_CANDIDATES then true else false

def BLACKLIST_EXCLUDES_WHITELIST_ENTRIES : Bool := true

def ADDRESS_AND_PORT_STABLE_DAYS : Int := 7

def CUTOFF_RUNNING : ℚ := 95 / 100

def CUTOFF_V2DIR : ℚ := 95 / 100

def CUTOFF_GUARD : ℚ := 95 / 100

def PERMITTED_BADEXIT : ℚ := 0

def AGE_ALPHA : ℚ := 99 / 100

def ONIONOO_SCALE_ONE : ℚ := 999

def FALLBACK_PROPORTION_OF_GUARDS : Option ℚ :=
  if OUTPUT_CANDIDATES then none else some (2 / 10)

def MAX_FALLBACK_COUNT : Option Int := if OUTPUT_CANDIDATES then none else some 100

def MIN_FALLBACK_COUNT : Int := 100

def EXIT_BANDWIDTH_FRACTION : ℚ := 1

def MIN_BANDWIDTH : ℚ := (1024 / 10) * 30 * 1024

def CONSENSUS_DOWNLOAD_SPEED_MAX : ℚ := 15

def FALLBACK_OUTPUT_WEIGHT : ℚ := 10

/-! ## Generic string helpers modelling Python 2 `str` operations -/

/-- Number of occurrences of the character `c`, Python `s.count(c)` for a
single-character argument. -/
def countChar (c : Char) : List Char → Nat
  | [] => 0
  | d :: rest => (if d = c then 1 else 0) + countChar c rest

/-- Python `s.count("::")`: non-overlapping occurrences of two adjacent colons,
scanning left to right. -/
def countDoubleColon : List Char → Nat
  | ':' :: ':' :: rest => 1 + countDoubleColon rest
  | _ :: rest => countDoubleColon rest
  | [] => 0

/-- Python substring membership `pat in s`, and the workhorse behind
`str.find`-style reasoning below. -/
def strContainsL (pat : List Char) : List Char → Bool
  | [] => pat.isEmpty
  | c :: rest => pat.isPrefixOf (c :: rest) || strContainsL pat rest

/-- Python `pat in s` on strings. -/
def strContains (s pat : String) : Bool := strContainsL pat.data s.data

/-- Python `s.split(sep)` for a single-character separator (no maxsplit):
`"".split(":") = [""]`, `":".split(":") = ["", ""]`. -/
def pySplit (sep : Char) : List Char → List (List Char)
  | [] => [[]]
  | c :: rest =>
    if c = sep then [] :: pySplit sep rest
    else
      match pySplit sep rest with
      | g :: gs => (c :: g) :: gs
      | [] => [[c]]

/-- Python `str.isdigit`: non-empty and all decimal digits. -/
def pyIsDigit (l : List Char) : Bool := !l.isEmpty && l.all Char.isDigit

/-- Numeric value of a string of decimal digits, Python `int(s)` on an
already-validated digit string. -/
def digitsVal (l : List Char) : Nat := l.foldl (fun n c => 10 * n + (c.toNat - 48)) 0

/-- Python `int(s)`: succeeds on non-empty all-digit strings, raises
`ValueError` otherwise (signs and surrounding whitespace, which the script
never feeds to `int`, are not modelled). -/
def pyInt (s : String) : Except String Nat :=
  if pyIsDigit s.data then .ok (digitsVal s.data) else .error ("ValueError: invalid literal for int()")

/-! ## Address literal validators (`Candidate.is_valid_ipv[46]_address`) -/

/-- One octet of `is_valid_ipv4_address`: `entry.isdigit()`, value in 0..255,
and no leading zero unless the octet is exactly `"0"`. -/
def ipv4OctetOk (entry : List Char) : Bool :=
  pyIsDigit entry && digitsVal entry ≤ 255 && !(entry.headD 'x' = '0' && entry.length > 1)

/-- `Candidate.is_valid_ipv4_address`, on the character list of the input. -/
def is_valid_ipv4_chars (address : List Char) : Bool :=
  if countChar '.' address ≠ 3 then false
  else (pySplit '.' address).all ipv4OctetOk

def is_valid_ipv4_address (s : String) : Bool := is_valid_ipv4_chars s.data

/-- The group regex `^[0-9a-fA-f]{0,4}$` of `is_valid_ipv6_address`.  Note the
source's character class really is `A-f` (not `A-F`), so besides hex digits it
admits `G`-`Z` and the ASCII characters between `Z` and `a`. -/
def looseHexChar (c : Char) : Bool :=
  ('0' ≤ c && c ≤ '9') || ('a' ≤ c && c ≤ 'f') || ('A' ≤ c && c ≤ 'f')

def looseHexGroup (g : List Char) : Bool := g.length ≤ 4 && g.all looseHexChar

/-- The per-group loop of `is_valid_ipv6_address`, carrying
`found_ipv4_on_previous_entry`: a group failing the regex must be a valid IPv4
literal, and nothing may follow it. -/
def checkGroups (found : Bool) : List (List Char) → Bool
  | [] => true
  | g :: rest =>
    if found then false
    else if looseHexGroup g then checkGroups false rest
    else if is_valid_ipv4_chars g then checkGroups true rest
    else false

/-- `Candidate.is_valid_ipv6_address`.  `address = address[1:-1]` drops the
first and the last character unconditionally (the source comment says
"remove brackets"). -/
def is_valid_ipv6_address (s : String) : Bool :=
  let address := (s.data.drop 1).dropLast
  let colon_count := countChar ':' address
  if colon_count > 7 then false
  else if colon_count ≠ 7 && !(strContainsL [':', ':'] address) then false
  else if countDoubleColon address > 1 || strContainsL [':', ':', ':'] address then false
  else checkGroups false (pySplit ':' address)

/-! ## Raw relay details documents and the `Candidate` data model

A raw onionoo details document is modelled field-by-field with `Option` for
presence.  JSON values are typed: the `last_changed_address_or_port`
timestamp is modelled post-`parse_ts` as seconds (an `Int`); `parse_ts`
failures on malformed timestamp strings are outside the claims considered
here.  `contact = null` and a missing `contact` have identical behaviour in
the script, as do `flags`/`advertised_bandwidth` being `null` or missing, so
those pairs are collapsed into a single `Option`. -/

structure Details where
  fingerprint : Option String
  nickname : Option String
  contact : Option String
  last_changed_address_or_port : Option Int
  consensus_weight : Option Int
  advertised_bandwidth : Option Int
  or_addresses : Option (List String)
  dir_address : Option String
  recommended_version : Option Bool
  flags : Option (List String)
deriving DecidableEq

/-- The `self._data` dictionary of a constructed `Candidate`.
`measured_bandwidth` is only present after `set_measured_bandwidth`
(a `KeyError` before that is modelled by `none`). -/
structure CandidateData where
  fingerprint : String
  nickname : String
  contact : Option String
  last_changed_address_or_port : Int
  consensus_weight : Int
  advertised_bandwidth : Int
  or_addresses : List String
  or_addresses_raw : List String
  dir_address : String
  recommended_version : Option Bool
  flags : List String
  measured_bandwidth : Option ℚ
deriving DecidableEq

/-- A constructed `Candidate`: `_data` plus the attributes `__init__` sets.
`_badexit` is only assigned by a complete `add_uptime`; before that the
attribute does not exist (`none` here; accessing it raises
`AttributeError`).  `some none` models `self._badexit = None`. -/
structure Candidate where
  _data : CandidateData
  _fpr : String
  dirip : String
  dirport : Nat
  orport : Nat
  ipv6addr : Option String
  ipv6orport : Option String
  _running : ℚ
  _guard : ℚ
  _v2dir : ℚ
  _badexit : Option (Option ℚ)
deriving DecidableEq

/-! ## Ingestion pipeline (`Candidate.__init__` and helpers) -/

/-- `_stable_sort_or_addresses`: keep the first address, sort the rest in
string order (Python's stable `sorted`). -/
def _stable_sort_or_addresses : List String → List String
  | [] => []
  | primary :: secondaries => primary :: secondaries.insertionSort (· ≤ ·)

/-- Python `s.rsplit(':', 1)` unpacked into two values: split at the last
colon; raises `ValueError` when there is no colon. -/
def rsplitColon (s : String) : Except String (String × String) :=
  let r := s.data.reverse
  let afterRev := r.takeWhile (fun c => c ≠ ':')
  let restRev := r.dropWhile (fun c => c ≠ ':')
  match restRev with
  | [] => .error ("ValueError: need more than 1 value to unpack")
  | _ :: beforeRev => .ok (⟨beforeRev.reverse⟩, ⟨afterRev.reverse⟩)

/-- `_split_dirport`: `dir_address.split(':', 2)` unpacked into
`(dirip, dirport)` with `int(dirport)`; anything but exactly one colon makes
the two-value unpacking raise. -/
def _split_dirport (dir_address : String) : Except String (String × Nat) :=
  match pySplit ':' dir_address.data with
  | [a, b] => do
    let p ← pyInt ⟨b⟩
    .ok (⟨a⟩, p)
  | _ => .error ("ValueError: dir_address unpack")

/-- `_compute_orport`: the port of the first (post-stabilisation) address
whose IP equals the directory IP and is a valid IPv4 literal. -/
def _compute_orport (or_addresses : List String) (dirip : String) :
    Except String (Option Nat) :=
  match or_addresses with
  | [] => .ok none
  | a :: rest => do
    let (ipaddr, port) ← rsplitColon a
    if ipaddr = dirip && is_valid_ipv4_address ipaddr then do
      let p ← pyInt port
      .ok (some p)
    else
      _compute_orport rest dirip

/-- Python 2 `==` between a `str` and an `int` compares the types and is
always `False`; `_compute_ipv6addr` compares the string `port` from
`rsplit` against the integer `self.orport` this way. -/
def pyEqStrInt (_s : String) (_n : Nat) : Bool := false

/-- First loop of `_compute_ipv6addr`: the first address whose port "equals"
the ORPort (see `pyEqStrInt`) and whose address is a valid IPv6 literal. -/
def ipv6SamePortLoop (or_addresses : List String) (orport : Nat) :
    Except String (Option (String × String)) :=
  match or_addresses with
  | [] => .ok none
  | a :: rest => do
    let (ipaddr, port) ← rsplitColon a
    if pyEqStrInt port orport && is_valid_ipv6_address ipaddr then
      .ok (some (ipaddr, port))
    else
      ipv6SamePortLoop rest orport

/-- Second loop of `_compute_ipv6addr`: the first valid IPv6 address in the
list. -/
def ipv6FirstValidLoop (or_addresses : List String) :
    Except String (Option (String × String)) :=
  match or_addresses with
  | [] => .ok none
  | a :: rest => do
    let (ipaddr, port) ← rsplitColon a
    if is_valid_ipv6_address ipaddr then
      .ok (some (ipaddr, port))
    else
      ipv6FirstValidLoop rest

/-- `_compute_ipv6addr`: prefer an address on the ORPort (dead in practice,
see `pyEqStrInt`), else the first valid IPv6 address, else no IPv6. -/
def _compute_ipv6addr (or_addresses : List String) (orport : Nat) :
    Except String (Option String × Option String) := do
  let r1 ← ipv6SamePortLoop or_addresses orport
  match r1 with
  | some pr => .ok (some pr.1, some pr.2)
  | none =>
    let r2 ← ipv6FirstValidLoop or_addresses
    match r2 with
    | some pr => .ok (some pr.1, some pr.2)
    | none => .ok (none, none)

/-- Extract a required details field, `raise Exception("Document has no %s
field.")` when absent. -/
def reqField {α : Type} (o : Option α) (name : String) : Except String α :=
  match o with
  | some a => .ok a
  | none => .error ("Document has no " ++ name ++ " field.")

/-- Everything `Candidate.__init__` computes before the attribute record is
assembled, in source order of the raised exceptions. -/
structure CandidateInit where
  data : CandidateData
  fpr : String
  dirip : String
  dirport : Nat
  orport : Nat
  ipv6addr : Option String
  ipv6orport : Option String
deriving DecidableEq

def mkCandidateInit (details : Details) : Except String CandidateInit := do
  let fingerprint ← reqField details.fingerprint ("fingerprint")
  let nickname ← reqField details.nickname ("nickname")
  let last_changed ← reqField details.last_changed_address_or_port ("last_changed_address_or_port")
  let consensus_weight ← reqField details.consensus_weight ("consensus_weight")
  let or_addresses_raw ← reqField details.or_addresses ("or_addresses")
  let dir_address ← reqField details.dir_address ("dir_address")
  let contact := details.contact
  let flags := details.flags.getD []
  let advertised_bandwidth := details.advertised_bandwidth.getD 0
  let or_addresses := _stable_sort_or_addresses or_addresses_raw
  let (dirip, dirport) ← _split_dirport dir_address
  let orport? ← _compute_orport or_addresses dirip
  let orport ← match orport? with
    | some p => pure p
    | none => Except.error ("Failed to get an orport for " ++ fingerprint ++ ".")
  let (ipv6addr, ipv6orport) ← _compute_ipv6addr or_addresses orport
  .ok { data := { fingerprint := fingerprint, nickname := nickname, contact := contact,
                  last_changed_address_or_port := last_changed,
                  consensus_weight := consensus_weight,
                  advertised_bandwidth := advertised_bandwidth,
                  or_addresses := or_addresses, or_addresses_raw := or_addresses_raw,
                  dir_address := dir_address,
                  recommended_version := details.recommended_version,
                  flags := flags, measured_bandwidth := none },
        fpr := fingerprint, dirip := dirip, dirport := dirport, orport := orport,
        ipv6addr := ipv6addr, ipv6orport := ipv6orport }

/-- The attribute record `__init__` leaves behind:
`self._running = self._guard = self._v2dir = 0.` and no `_badexit`. -/
def candidateOfInit (i : CandidateInit) : Candidate :=
  { _data := i.data, _fpr := i.fpr, dirip := i.dirip, dirport := i.dirport,
    orport := i.orport, ipv6addr := i.ipv6addr, ipv6orport := i.ipv6orport,
    _running := 0, _guard := 0, _v2dir := 0, _badexit := none }

/-- `Candidate(details)`: the constructor as a fallible function. -/
def mkCandidate (details : Details) : Except String Candidate :=
  (mkCandidateInit details).map candidateOfInit

/-! ## List matcher (`is_in_whitelist`, `is_in_blacklist`)

List entries come from `load_relaylist` as dictionaries over the fixed key
set ipv4/dirport/orport/id/ipv6; `is_in_whitelist` indexes the first four
unconditionally (a `KeyError` on sparser entries), so whitelist entries are
modelled with those required; blacklist entries are fully sparse.  Ports are
modelled post-`int()` as `Nat`. -/

structure WhitelistEntry where
  id : String
  ipv4 : String
  dirport : Nat
  orport : Nat
  ipv6 : Option String
deriving DecidableEq

structure BlacklistEntry where
  id : Option String
  ipv4 : Option String
  dirport : Option Nat
  orport : Option Nat
  ipv6 : Option String
deriving DecidableEq

/-- `has_ipv6 = self.ipv6addr is not None and self.ipv6orport is not None` -/
def hasIPv6 (c : Candidate) : Bool := c.ipv6addr.isSome && c.ipv6orport.isSome

/-- `ipv6 = self.ipv6addr + ':' + self.ipv6orport` (only evaluated when both
attributes are set). -/
def candidateIPv6Str (c : Candidate) : String :=
  c.ipv6addr.getD "" ++ ":" ++ c.ipv6orport.getD ""

/-- The `is_in_whitelist` entry loop.  A chain of `continue`s falls through
to `return True`; the boolean argument tracks whether the local variable
`ipv6` has been assigned yet in this invocation.  It is assigned only inside
the both-have-IPv6 branch (`ipv6 = self.ipv6addr + ':' + self.ipv6orport`),
always to that same value; the relay-has-IPv6/entry-has-no-`ipv6` branch
passes `ipv6` to its log calls, so reaching it with the local still unbound
raises `UnboundLocalError` and aborts the whole lookup. -/
def whitelistLoop (c : Candidate) (ipv6Bound : Bool) :
    List WhitelistEntry → Except String Bool
  | [] => .ok false
  | entry :: rest =>
    if entry.id ≠ c._fpr then whitelistLoop c ipv6Bound rest
    else if entry.ipv4 ≠ c.dirip then whitelistLoop c ipv6Bound rest
    else if entry.dirport ≠ c.dirport then whitelistLoop c ipv6Bound rest
    else if entry.orport ≠ c.orport then whitelistLoop c ipv6Bound rest
    else
      match entry.ipv6, hasIPv6 c with
      | some v, true =>
        if v ≠ candidateIPv6Str c then whitelistLoop c true rest
        else .ok true
      | some _, false => whitelistLoop c ipv6Bound rest
      | none, true =>
        if ipv6Bound then whitelistLoop c ipv6Bound rest
        else .error ("UnboundLocalError: local variable ipv6 referenced before assignment")
      | none, false => .ok true

/-- `is_in_whitelist`: the loop starts with the local `ipv6` unbound. -/
def is_in_whitelist (c : Candidate) (relaylist : List WhitelistEntry) :
    Except String Bool :=
  whitelistLoop c false relaylist

/-- The keys of `is_in_blacklist`'s `for key in entry` loop.  Python 2 dict
iteration order is arbitrary; the loop body only ever returns `True`, so the
result does not depend on the order and a canonical order is used here. -/
inductive BKey
  | id
  | ipv4
  | dirport
  | orport
  | ipv6
deriving DecidableEq

def blacklistEntryKeys (e : BlacklistEntry) : List BKey :=
  (if e.id.isSome then [BKey.id] else []) ++
  (if e.ipv4.isSome then [BKey.ipv4] else []) ++
  (if e.dirport.isSome then [BKey.dirport] else []) ++
  (if e.orport.isSome then [BKey.orport] else []) ++
  (if e.ipv6.isSome then [BKey.ipv6] else [])

/-- One iteration of the `is_in_blacklist` key loop: `True` when this key
triggers a match.  Note the `elif`: with a `dirport` key present the
`orport` key is never consulted in the ipv4 branch, and a present-but-unequal
`dirport` does not fall back to the `orport` check. -/
def blacklistLoopBody (c : Candidate) (e : BlacklistEntry) : BKey → Bool
  | BKey.id => e.id = some c._fpr
  | BKey.ipv4 =>
    if e.ipv4 = some c.dirip then
      match e.dirport with
      | some dp => dp = c.dirport
      | none =>
        match e.orport with
        | some op => op = c.orport
        | none => true
    else false
  | BKey.ipv6 =>
    if hasIPv6 c then
      match e.ipv6 with
      | some v =>
        if v = candidateIPv6Str c then
          match e.dirport with
          | some dp => dp = c.dirport
          | none => true
        else false
      | none => false
    else false
  | _ => false

def blacklistEntryMatches (c : Candidate) (e : BlacklistEntry) : Bool :=
  (blacklistEntryKeys e).any (blacklistLoopBody c e)

def is_in_blacklist (c : Candidate) (relaylist : List BlacklistEntry) : Bool :=
  relaylist.any (blacklistEntryMatches c)

/-! ## History aggregator (`_extract_generic_history`, `_avg_generic_history`)

Timestamps are seconds (`Int`); `parse_ts`/`timedelta` arithmetic on whole
seconds is exact, and the `microseconds`-based reconstruction of an age in
the source floor-divides by `10^6` and therefore yields exactly the
difference in seconds. -/

/-- One period bucket of an uptime history document (`first` and `count` are
only used by the source for non-fatal consistency log lines). -/
structure HistPeriod where
  name : String
  interval : Int
  first : Int
  last : Int
  count : Int
  values : List Int
deriving DecidableEq

/-- An `(age, length, value)` sample dictionary. -/
structure HistSample where
  age : Int
  length : Int
  value : Int
deriving DecidableEq

/-- The inner `for v in reversed(h['values'])` loop: `this_ts` starts at the
period's `last` timestamp and decreases by `interval` at every step; a value
is emitted only when `this_ts ≤ newest`, and then `newest` becomes
`this_ts`.  Takes the reversed value list; returns the samples and the final
watermark. -/
def extractValuesGo (now : Int) (newest this_ts interval : Int) :
    List Int → List HistSample × Int
  | [] => ([], newest)
  | v :: vs =>
    if this_ts ≤ newest then
      let rest := extractValuesGo now this_ts (this_ts - interval) interval vs
      ({ age := now - this_ts, length := interval, value := v } :: rest.1, rest.2)
    else
      extractValuesGo now newest (this_ts - interval) interval vs

/-- The outer loop of `_extract_generic_history` over interval-sorted
periods, threading the `newest` watermark. -/
def extractPeriodsGo (now : Int) : List HistPeriod → Int → List HistSample
  | [], _ => []
  | p :: ps, newest =>
    let res := extractValuesGo now newest p.last p.interval p.values.reverse
    res.1 ++ extractPeriodsGo now ps res.2

/-- `_extract_generic_history`: sort the periods by ascending interval
(Python's stable sort over the dict keys) and walk them newest-first against
a watermark starting at `now` (`datetime.datetime.utcnow()`, passed
explicitly here). -/
def _extract_generic_history (now : Int) (history : List HistPeriod) : List HistSample :=
  extractPeriodsGo now (history.insertionSort (fun a b => a.interval ≤ b.interval)) now

/-- Python 2 `math.pow(AGE_ALPHA, age/(3600*24))` where the exponent is an
int floor-division. -/
def pyPowInt (base : ℚ) (e : Int) : ℚ :=
  if 0 ≤ e then base ^ e.toNat else (base ^ (-e).toNat)⁻¹

/-- `_avg_generic_history`: drop samples older than the stability window,
weight by `length * AGE_ALPHA^(age in days)` and return the weighted average
(`0.0` when the total weight is zero). -/
def _avg_generic_history (generic_history : List HistSample) : ℚ :=
  let a := generic_history.filterMap (fun i =>
    if i.age > ADDRESS_AND_PORT_STABLE_DAYS * 24 * 3600 then none
    else
      let w := (i.length : ℚ) * pyPowInt AGE_ALPHA (Int.fdiv i.age (3600 * 24))
      some ((i.value : ℚ) * w, w))
  let sv := (a.map Prod.fst).sum
  let sw := (a.map Prod.snd).sum
  if sw = 0 then 0 else sv / sw

/-! ## Uptime documents and `add_uptime` -/

/-- The per-flag histories of one uptime document relevant to the script. -/
structure UptimeFlags where
  Running : Option (List HistPeriod)
  Guard : Option (List HistPeriod)
  V2Dir : Option (List HistPeriod)
  BadExit : Option (List HistPeriod)
deriving DecidableEq

structure UptimeDoc where
  fingerprint : Option String
  flags : Option UptimeFlags
deriving DecidableEq

/-- `Candidate.add_uptime`: returns early (leaving the candidate unchanged)
when the document has no `flags` key or any of Running/Guard/V2Dir is
missing; otherwise sets the three fractions and `_badexit`. -/
def add_uptime (c : Candidate) (now : Int) (uptime : UptimeDoc) : Candidate :=
  match uptime.flags with
  | none => c
  | some fl =>
    match fl.Running, fl.Guard, fl.V2Dir with
    | some hr, some hg, some hv =>
      { c with
        _running := _avg_generic_history (_extract_generic_history now hr) / ONIONOO_SCALE_ONE
        _guard := _avg_generic_history (_extract_generic_history now hg) / ONIONOO_SCALE_ONE
        _v2dir := _avg_generic_history (_extract_generic_history now hv) / ONIONOO_SCALE_ONE
        _badexit := some (fl.BadExit.map (fun hb =>
          _avg_generic_history (_extract_generic_history now hb) / ONIONOO_SCALE_ONE)) }
    | _, _, _ => c

/-! ## Eligibility (`is_candidate`) -/

def is_exit (c : Candidate) : Bool := c._data.flags.contains ("Exit")

def is_guard (c : Candidate) : Bool := c._data.flags.contains ("Guard")

def is_running (c : Candidate) : Bool := c._data.flags.contains ("Running")

/-- `Candidate.is_candidate`, parametrised by the stability cutoff timestamp
(`CUTOFF_ADDRESS_AND_PORT_STABLE`, computed from `utcnow()` at class-body
time) and the four threshold constants, so that claims about the thresholds
can be stated for arbitrary positive cutoffs.  Accessing `self._badexit`
before any complete `add_uptime` raises `AttributeError` (the `.error`
branch).  `consensus_weight` and friends are always present after
`__init__`, so the `has_key('consensus_weight')` guard is just the `< 1`
test here. -/
def is_candidateGen (stable_cutoff : Int) (cutoff_running cutoff_v2dir cutoff_guard
    permitted_badexit : ℚ) (c : Candidate) : Except String Bool :=
  let must_be_running_now := PERFORM_IPV4_DIRPORT_CHECKS || PERFORM_IPV6_DIRPORT_CHECKS
  if must_be_running_now && !(is_running c) then .ok false
  else if stable_cutoff < c._data.last_changed_address_or_port then .ok false
  else if c._running < cutoff_running then .ok false
  else if c._v2dir < cutoff_v2dir then .ok false
  else
    match c._badexit with
    | none => .error ("AttributeError: Candidate instance has no attribute _badexit")
    | some be =>
      if (match be with | some b => decide (permitted_badexit < b) | none => false) then .ok false
      else if (match c._data.recommended_version with | some true => false | _ => true) then
        .ok false
      else if c._guard < cutoff_guard then .ok false
      else if c._data.consensus_weight < 1 then .ok false
      else .ok true

/-- `is_candidate` with the script's constants. -/
def is_candidate (stable_cutoff : Int) (c : Candidate) : Except String Bool :=
  is_candidateGen stable_cutoff CUTOFF_RUNNING CUTOFF_V2DIR CUTOFF_GUARD PERMITTED_BADEXIT c

/-! ## CandidateList: ingestion of the details document (`_add_relay`) -/

/-- The fingerprint-keyed dictionary `CandidateList` subclasses, as an
insertion-ordered association list; `self[fpr] = c` overwrites in place or
appends. -/
abbrev CandidateDict : Type := List (String × Candidate)

def dictInsert (d : CandidateDict) (k : String) (v : Candidate) : CandidateDict :=
  if (List.any d (fun kv => kv.1 = k)) then
    List.map (fun kv => if kv.1 = k then (k, v) else kv) d
  else
    d ++ [(k, v)]

/-- `CandidateList._add_relay`: a record without a `dir_address` key is
silently skipped; otherwise `Candidate(details)` is constructed, and any
exception it raises propagates (there is no `try` in the caller). -/
def _add_relay (d : CandidateDict) (details : Details) : Except String CandidateDict :=
  if details.dir_address.isNone then .ok d
  else do
    let c ← mkCandidate details
    .ok (dictInsert d c._fpr c)

/-- The `for r in d['relays']: self._add_relay(r)` loop of `_add_details`:
the first exception aborts the whole run. -/
def add_details_relays (relays : List Details) : Except String CandidateDict :=
  relays.foldlM _add_relay []

/-! ## Bandwidth estimator -/

/-- `cw_to_bw_factor`: `advertised_bandwidth / consensus_weight`, a Python 2
floor division of two ints. -/
def cw_to_bw_factor (c : Candidate) : Int :=
  Int.fdiv c._data.advertised_bandwidth c._data.consensus_weight

/-- `measured_bandwidth(median_cw_to_bw_factor)`: scale the factor by
`EXIT_BANDWIDTH_FRACTION` for exits, multiply by the consensus weight, and
cap at the advertised bandwidth when that is nonzero. -/
def measured_bandwidth (c : Candidate) (median_cw_to_bw_factor : ℚ) : ℚ :=
  let cw_to_bw := if is_exit c then median_cw_to_bw_factor * EXIT_BANDWIDTH_FRACTION
                  else median_cw_to_bw_factor
  let mb := (c._data.consensus_weight : ℚ) * cw_to_bw
  if c._data.advertised_bandwidth ≠ 0 then min mb (c._data.advertised_bandwidth : ℚ)
  else mb

def set_measured_bandwidth (c : Candidate) (median_cw_to_bw_factor : ℚ) : Candidate :=
  { c with _data := { c._data with
      measured_bandwidth := some (measured_bandwidth c median_cw_to_bw_factor) } }

/-- Python 2 `==` between the `str` keys of the CandidateList dict and a
`Candidate` instance used as a lookup key: different types, always
`False`. -/
def pyEqStrCandidate (_k : String) (_c : Candidate) : Bool := false

/-- `self[x]` in `sort_fallbacks_by_cw_to_bw_factor`, where `x` is a
`Candidate` object but the dict is keyed by fingerprint strings: the lookup
can never match and raises `KeyError`. -/
def dictLookupByCandidate (d : CandidateDict) (x : Candidate) : Except String Candidate :=
  match List.find? (fun kv => pyEqStrCandidate kv.1 x) d with
  | some kv => .ok kv.2
  | none => .error ("KeyError")

/-- `sort_fallbacks_by_cw_to_bw_factor`: `list.sort` first evaluates the key
function on every element (each a `self[x].cw_to_bw_factor()` lookup), then
sorts stably by the keys. -/
def sort_fallbacks_by_cw_to_bw_factor (d : CandidateDict) (fallbacks : List Candidate) :
    Except String (List Candidate) := do
  let keyed ← fallbacks.mapM (fun x => do
    let c ← dictLookupByCandidate d x
    pure (cw_to_bw_factor c, x))
  pure ((keyed.insertionSort (fun a b => a.1 ≤ b.1)).map Prod.snd)

/-- The advancing loop of `fallback_median`: move past entries whose
advertised bandwidth is falsy (zero), `None` once the index runs off the
end. -/
def medianAdvance (fallbacks : List Candidate) (pos : Nat) : Option Candidate :=
  if h : pos < fallbacks.length then
    if (fallbacks.get ⟨pos, h⟩)._data.advertised_bandwidth ≠ 0 then
      some (fallbacks.get ⟨pos, h⟩)
    else
      medianAdvance fallbacks (pos + 1)
  else none
termination_by fallbacks.length - pos

/-- `fallback_median(require_advertised_bandwidth)`: low-median index
`(len - 1) / 2`, optionally advanced to the next entry with nonzero
advertised bandwidth. -/
def fallback_median (fallbacks : List Candidate) (require_advertised_bandwidth : Bool) :
    Option Candidate :=
  if fallbacks.length > 0 then
    let median_position := (fallbacks.length - 1) / 2
    if !require_advertised_bandwidth then fallbacks.get? median_position
    else medianAdvance fallbacks median_position
  else none

/-- `fallback_min`: `self.fallbacks[-1]` or `None`. -/
def fallback_min (fallbacks : List Candidate) : Option Candidate := fallbacks.getLast?

/-- `fallback_max`: `self.fallbacks[0]` or `None`. -/
def fallback_max (fallbacks : List Candidate) : Option Candidate := fallbacks.head?

/-- `calculate_measured_bandwidth`: sort by `cw_to_bw_factor`, take the
bandwidth-bearing median and stamp every fallback with its measured
bandwidth.  `fallback_median(True)` returning `None` makes the
`median_fallback.cw_to_bw_factor()` call raise `AttributeError`. -/
def calculate_measured_bandwidth (d : CandidateDict) (fallbacks : List Candidate) :
    Except String (List Candidate) := do
  let sorted ← sort_fallbacks_by_cw_to_bw_factor d fallbacks
  match fallback_median sorted true with
  | none => .error ("AttributeError: NoneType instance has no attribute cw_to_bw_factor")
  | some median_fallback =>
    let median_cw_to_bw_factor : ℚ := (cw_to_bw_factor median_fallback : ℚ)
    .ok (sorted.map (fun f => set_measured_bandwidth f median_cw_to_bw_factor))

/-! ## Text cleansing and formatting helpers -/

/-- Python `string.whitespace`. -/
def pyWhitespace : List Char := ['\t', '\n', '\x0b', '\x0c', '\r', ' ']

/-- Membership in `string.punctuation` (printable ASCII that is neither
alphanumeric nor space). -/
def isPyPunct (c : Char) : Bool :=
  (33 ≤ c.toNat && c.toNat ≤ 47) || (58 ≤ c.toNat && c.toNat ≤ 64) ||
  (91 ≤ c.toNat && c.toNat ≤ 96) || (123 ≤ c.toNat && c.toNat ≤ 126)

/-- `cleanse_whitespace`: replace every whitespace character with a space. -/
def cleanse_whitespace (raw : String) : String :=
  ⟨raw.data.map (fun c => if pyWhitespace.contains c then ' ' else c)⟩

/-- `cleanse_unprintable`: keep only ASCII letters, digits, punctuation and
whitespace. -/
def cleanse_unprintable (raw : String) : String :=
  ⟨raw.data.filter (fun c =>
    (('A' ≤ c && c ≤ 'Z') || ('a' ≤ c && c ≤ 'z')) || c.isDigit || isPyPunct c ||
    pyWhitespace.contains c)⟩

/-- `remove_bad_chars`: delete every occurrence of each listed character. -/
def remove_bad_chars (raw : String) (bad_char_list : List Char) : String :=
  ⟨raw.data.filter (fun c => !bad_char_list.contains c)⟩

def cleanse_c_multiline_comment (raw : String) : String :=
  remove_bad_chars (cleanse_unprintable (cleanse_whitespace raw)) ['*', '/', '\x00']

def cleanse_c_string (raw : String) : String :=
  remove_bad_chars (cleanse_unprintable (cleanse_whitespace raw)) ['"', '\\', '\x00']

/-- Round to the nearest integer, ties to even (the rounding used by C
`printf`-style float formatting; exact binary-float effects are below the
precision any claim depends on). -/
def roundHalfEven (q : ℚ) : Int :=
  let f := q.floor
  let r := q - (f : ℚ)
  if r > 1 / 2 then f + 1
  else if r < 1 / 2 then f
  else if f % 2 = 0 then f else f + 1

def padLeftZeros (len : Nat) (s : String) : String :=
  ⟨List.replicate (len - s.length) '0' ++ s.data⟩

/-- `'%.<prec>f' % q`. -/
def fmtFixed (prec : Nat) (q : ℚ) : String :=
  let n := roundHalfEven (q * (10 : ℚ) ^ prec)
  let m := n.natAbs
  (if n < 0 then "-" else "") ++ toString (m / 10 ^ prec) ++ "." ++
    padLeftZeros prec (toString (m % 10 ^ prec))

/-- `'%d' % q` on a Python float: truncation toward zero. -/
def pyFmtD (q : ℚ) : String :=
  toString (if q < 0 then -((-q).floor) else q.floor)

/-! ## `fallbackdir_line` and the output loop of `list_fallbacks` -/

/-- `fallbackdir_line(dl_speed_ok, fallbacks, prefilter_fallbacks)` with the
script's configuration: `CONTACT_COUNT` and `CONTACT_BLACKLIST_COUNT` are
both `False`, so the identical-contact counting blocks are skipped and the
two list arguments are unused.  (`self.ipv6orport` is always set together
with `self.ipv6addr` by `_compute_ipv6addr`; the `getD` default is never
reached on constructed candidates.) -/
def fallbackdir_line (c : Candidate) (dl_speed_ok : Bool) : String :=
  let s := "/*" ++ "\n" ++ cleanse_c_multiline_comment c._data.nickname ++ "\n" ++
    "Flags: " ++
    cleanse_c_multiline_comment (String.intercalate (" ") (c._data.flags.insertionSort (· ≤ ·))) ++
    "\n"
  let s := s ++ (match c._data.contact with
    | some contact => cleanse_c_multiline_comment contact ++ "\n"
    | none => "")
  let s := s ++ "*/" ++ "\n"
  let s := s ++ (if !dl_speed_ok then "/* Consensus download failed or was too slow:" ++ "\n" else "")
  let s := s ++ "\"" ++ cleanse_c_string c._data.dir_address ++ " orport=" ++
    toString c.orport ++ " id=" ++ cleanse_c_string c._fpr ++ "\"" ++ "\n"
  let s := s ++ (match c.ipv6addr with
    | some a => "\" ipv6=" ++ cleanse_c_string a ++ ":" ++
        cleanse_c_string (c.ipv6orport.getD "") ++ "\"" ++ "\n"
    | none => "")
  let s := s ++ "\" weight=" ++ pyFmtD FALLBACK_OUTPUT_WEIGHT ++ "\","
  s ++ (if !dl_speed_ok then "\n" ++ "*/" else "")

/-- The final loop of `list_fallbacks`: print a line for every fallback in
order (the consensus-download result only changes the line's text), counting
the passing ones and stopping once `max_count` passing fallbacks have been
printed.  The network download check is abstracted as the oracle `dl_ok`. -/
def outputFallbackLines (dl_ok : Candidate → Bool) (max_count : Int) :
    List Candidate → Int → List String
  | [], _ => []
  | x :: rest, active_count =>
    let ok := dl_ok x
    fallbackdir_line x ok ::
      (if ok then
        (if active_count + 1 ≥ max_count then []
         else outputFallbackLines dl_ok max_count rest (active_count + 1))
       else outputFallbackLines dl_ok max_count rest active_count)

def output_fallback_lines (fallbacks : List Candidate) (dl_ok : Candidate → Bool)
    (max_count : Int) : List String :=
  outputFallbackLines dl_ok max_count fallbacks 0

/-! ## `summarise_fallbacks` -/

/-- Attribute access on the result of `fallback_min`/`fallback_max`:
`None._data` raises `AttributeError`. -/
def attrData (o : Option Candidate) : Except String CandidateData :=
  match o with
  | some c => .ok c._data
  | none => .error ("AttributeError: NoneType instance has no attribute _data")

/-- `_data['measured_bandwidth']` before `set_measured_bandwidth` raises
`KeyError`. -/
def keyMeasuredBandwidth (d : CandidateData) : Except String ℚ :=
  match d.measured_bandwidth with
  | some q => .ok q
  | none => .error ("KeyError: measured_bandwidth")

/-- The `#error` suffix `summarise_fallbacks` appends when the final count is
below `MIN_FALLBACK_COUNT`. -/
def lowCountSuffix (fallback_count : Int) : String :=
  "\n" ++ ("#error Fallback Count " ++ (toString fallback_count ++ (" is too low. " ++
    ("Must be at least " ++ (toString MIN_FALLBACK_COUNT ++ (" for diversity. " ++
    ("Try adding entries to the whitelist, " ++
     "or setting INCLUDE_UNLISTED_ENTRIES = True.")))))))

/-- `summarise_fallbacks(eligible_count, guard_count, target_count,
max_count)`: builds the C comment summary; when the count is below the
minimum it appends a C `#error` line to the returned string — it raises
nothing in that case (the only exceptions come from an empty fallback list
or an unset `measured_bandwidth`). -/
def summarise_fallbacks (fallbacks : List Candidate)
    (eligible_count guard_count target_count _max_count : Int) : Except String String := do
  let s := if PERFORM_IPV4_DIRPORT_CHECKS || PERFORM_IPV6_DIRPORT_CHECKS then
      "/* Checked " ++ (if PERFORM_IPV4_DIRPORT_CHECKS then "IPv4" else "") ++
      (if PERFORM_IPV4_DIRPORT_CHECKS && PERFORM_IPV6_DIRPORT_CHECKS then " and " else "") ++
      (if PERFORM_IPV6_DIRPORT_CHECKS then "IPv6" else "") ++
      " DirPorts served a consensus within " ++ fmtFixed 1 CONSENSUS_DOWNLOAD_SPEED_MAX ++
      "s. */"
    else "/* Did not check IPv4 or IPv6 DirPort consensus downloads. */"
  let fallback_count : Int := fallbacks.length
  let fallback_proportion := match FALLBACK_PROPORTION_OF_GUARDS with
    | none => ""
    | some p => ", Target " ++ toString target_count ++ " (" ++ toString guard_count ++
        " * " ++ fmtFixed 6 p ++ ")"
  let s := s ++ "\n" ++ "/*" ++ "\n" ++ "Final Count: " ++ toString fallback_count ++
    " (Eligible " ++ toString eligible_count ++ fallback_proportion
  let s := s ++ (match MAX_FALLBACK_COUNT with
    | none => ""
    | some m => ", Clamped to " ++ toString m)
  let s := s ++ ")" ++ "\n"
  let s := s ++ (if eligible_count ≠ fallback_count then
      "Excluded:     " ++ toString (eligible_count - fallback_count) ++
      " (Eligible Count Exceeded Target Count)" ++ "\n"
    else "")
  let min_data ← attrData (fallback_min fallbacks)
  let min_bw ← keyMeasuredBandwidth min_data
  let max_data ← attrData (fallback_max fallbacks)
  let max_bw ← keyMeasuredBandwidth max_data
  let s := s ++ "Bandwidth Range: " ++ fmtFixed 1 (min_bw / (1024 * 1024)) ++ " - " ++
    fmtFixed 1 (max_bw / (1024 * 1024)) ++ " MB/s" ++ "\n" ++ "*/"
  let s := if fallback_count < MIN_FALLBACK_COUNT then s ++ lowCountSuffix fallback_count
    else s
  .ok s

/-! ## Specification-side definitions

The following definitions are written from the specification's words (not
from the source) and are compared with the embedded code in refinement
theorems below. -/

/-- The blacklist claim as written: a relay matches iff at least one of the
six groups is satisfied — fingerprint alone; IPv4+dirport; IPv4+orport; IPv4
alone when the entry specifies neither port; IPv6+dirport; or an IPv6 value
that already encodes the onion-routing port. -/
def blacklistClaimSpec (c : Candidate) (e : BlacklistEntry) : Bool :=
  (e.id = some c._fpr) ||
  (e.ipv4 = some c.dirip && e.dirport = some c.dirport) ||
  (e.ipv4 = some c.dirip && e.orport = some c.orport) ||
  (e.ipv4 = some c.dirip && e.dirport = none && e.orport = none) ||
  (hasIPv6 c && e.ipv6 = some (candidateIPv6Str c) && e.dirport = some c.dirport) ||
  (hasIPv6 c && e.ipv6 = some (candidateIPv6Str c))

/-- The blacklist claim as amended: when the entry specifies a dirport, the
IPv4 group and the IPv6 group are only satisfied together with that dirport
(the orport is never consulted then); the orport group applies only to
entries without a dirport. -/
def blacklistAmendedSpec (c : Candidate) (e : BlacklistEntry) : Bool :=
  (e.id = some c._fpr) ||
  (e.ipv4 = some c.dirip &&
    (match e.dirport, e.orport with
     | some dp, _ => dp = c.dirport
     | none, some op => op = c.orport
     | none, none => true)) ||
  (hasIPv6 c && e.ipv6 = some (candidateIPv6Str c) &&
    (match e.dirport with
     | some dp => dp = c.dirport
     | none => true))

/-- Strict hexadecimal digit (what the claim means by "hexadecimal
digits"). -/
def isStrictHexDigit (c : Char) : Bool :=
  ('0' ≤ c && c ≤ '9') || ('a' ≤ c && c ≤ 'f') || ('A' ≤ c && c ≤ 'F')

def strictHexGroup (g : List Char) : Bool := g.length ≤ 4 && g.all isStrictHexDigit

/-- "removing any bracket delimiters": strip a leading `[` and a trailing
`]` when present. -/
def stripBrackets (l : List Char) : List Char :=
  let l1 := match l with
    | '[' :: t => t
    | other => other
  if l1.getLast? = some ']' then l1.dropLast else l1

/-- The IPv6-validator claim as written: after removing any bracket
delimiters, at most 7 colons; either exactly 7 colon-separated groups or
exactly one `::` collapse; no `::::` sequence; each group a possibly empty
run of at most four hexadecimal digits; any embedded IPv4 literal only as
the final group. -/
def ipv6ClaimSpec (s : String) : Bool :=
  let a := stripBrackets s.data
  let groups := pySplit ':' a
  countChar ':' a ≤ 7 &&
  (countChar ':' a == 7 || countDoubleColon a == 1) &&
  !(strContainsL [':', ':', ':', ':'] a) &&
  groups.dropLast.all strictHexGroup &&
  (strictHexGroup (groups.getLastD []) || is_valid_ipv4_chars (groups.getLastD []))

/-- The IPv6-validator claim as amended to match the code: the "bracket
removal" drops the first and last character unconditionally; the per-group
character class is the regex range `[0-9a-fA-f]` (which also admits `G`-`Z`
and some punctuation); the collapse conditions are `colons = 7` or `::`
present, at most one `::` occurrence and no `:::` substring; all groups but
the last must match the class, and the last must match it or be a valid
embedded IPv4 literal. -/
def ipv6CodeSpec (s : String) : Bool :=
  let a := (s.data.drop 1).dropLast
  let groups := pySplit ':' a
  countChar ':' a ≤ 7 &&
  (countChar ':' a == 7 || strContainsL [':', ':'] a) &&
  countDoubleColon a ≤ 1 &&
  !(strContainsL [':', ':', ':'] a) &&
  groups.dropLast.all looseHexGroup &&
  (looseHexGroup (groups.getLastD []) || is_valid_ipv4_chars (groups.getLastD []))

/-! ## Concrete documents and candidates used by witnesses and
counterexamples -/

/-- A fully valid details record. -/
def goodDetails : Details :=
  { fingerprint := some ("GOOD")
    nickname := some ("good")
    contact := none
    last_changed_address_or_port := some 100
    consensus_weight := some 500
    advertised_bandwidth := some 1000
    or_addresses := some ["5.6.7.8:443"]
    dir_address := some ("5.6.7.8:80")
    recommended_version := some true
    flags := some ["Running"] }

/-- The candidate `mkCandidate goodDetails` constructs. -/
def goodCandidate : Candidate :=
  { _data := { fingerprint := "GOOD"
               nickname := "good"
               contact := none
               last_changed_address_or_port := 100
               consensus_weight := 500
               advertised_bandwidth := 1000
               or_addresses := ["5.6.7.8:443"]
               or_addresses_raw := ["5.6.7.8:443"]
               dir_address := "5.6.7.8:80"
               recommended_version := some true
               flags := ["Running"]
               measured_bandwidth := none }
    _fpr := "GOOD"
    dirip := "5.6.7.8"
    dirport := 80
    orport := 443
    ipv6addr := none
    ipv6orport := none
    _running := 0
    _guard := 0
    _v2dir := 0
    _badexit := none }

/-- A details record with a `dir_address` but no `fingerprint`. -/
def noFprDetails : Details := { goodDetails with fingerprint := none }

/-- A candidate whose measured bandwidth has been set, used by the
summary/output theorems. -/
def candA : Candidate :=
  { _data := { fingerprint := "AAAA"
               nickname := "relayA"
               contact := none
               last_changed_address_or_port := 0
               consensus_weight := 1000
               advertised_bandwidth := 5000000
               or_addresses := ["1.2.3.4:443"]
               or_addresses_raw := ["1.2.3.4:443"]
               dir_address := "1.2.3.4:80"
               recommended_version := some true
               flags := ["Fast", "Guard", "Running", "Stable", "V2Dir"]
               measured_bandwidth := some 1048576 }
    _fpr := "AAAA"
    dirip := "1.2.3.4"
    dirport := 80
    orport := 443
    ipv6addr := none
    ipv6orport := none
    _running := 1
    _guard := 1
    _v2dir := 1
    _badexit := some none }

/-- `candA` before `set_measured_bandwidth`, for the median computation
claim. -/
def candARaw : Candidate :=
  { candA with _data := { candA._data with measured_bandwidth := none } }

/-- The specification's bandwidth example: consensus weight 1000, advertised
bandwidth 40000. -/
def candB : Candidate :=
  { candA with _data := { candA._data with advertised_bandwidth := 40000 } }

/-- `candA` with an IPv6 address and IPv6 ORPort. -/
def candIPv6 : Candidate :=
  { candA with ipv6addr := some ("[aa00::1]"), ipv6orport := some ("443") }

/-- A whitelist entry agreeing with `candIPv6` on fingerprint, IPv4, dirport
and orport but listing no `ipv6` key. -/
def wlAsymEntry : WhitelistEntry :=
  { id := "AAAA"
    ipv4 := "1.2.3.4"
    dirport := 80
    orport := 443
    ipv6 := none }

/-- `wlAsymEntry` with the matching IPv6 value. -/
def wlMatchingEntry : WhitelistEntry :=
  { wlAsymEntry with ipv6 := some ("[aa00::1]:443") }

/-- `wlAsymEntry` with a non-matching IPv6 value. -/
def wlWrongIPv6Entry : WhitelistEntry :=
  { wlAsymEntry with ipv6 := some ("[bb00::2]:443") }

/-- A blacklist entry listing IPv4, dirport and orport. -/
def bEntryFull : BlacklistEntry :=
  { id := none
    ipv4 := some ("1.2.3.4")
    dirport := some 80
    orport := some 443
    ipv6 := none }

/-- A relay sharing `bEntryFull`'s IPv4 and orport, with a different
dirport. -/
def relayOtherDirport : Candidate :=
  { candA with dirport := 81
               _data := { candA._data with dir_address := "1.2.3.4:81" } }

/-- An uptime document that makes `add_uptime` return early: no `flags` key,
or one of the Running/Guard/V2Dir histories missing. -/
def incompleteUptimeDoc (u : UptimeDoc) : Bool :=
  match u.flags with
  | none => true
  | some fl => fl.Running.isNone || fl.Guard.isNone || fl.V2Dir.isNone

/-- An uptime document without a `flags` key. -/
def docNoFlags : UptimeDoc := { fingerprint := some ("GOOD"), flags := none }

/-- An uptime document whose flags lack `Guard`. -/
def docNoGuard : UptimeDoc :=
  { fingerprint := some ("GOOD")
    flags := some { Running := some [], Guard := none, V2Dir := some [], BadExit := none } }

/-- A fine-grained history period for the extraction witness. -/
def finePeriod : HistPeriod :=
  { name := "1_week", interval := 10, first := 980, last := 1000, count := 3,
    values := [5, 6, 7] }

/-- A coarse history period whose whole coverage lies inside
`finePeriod`'s. -/
def coarsePeriod : HistPeriod :=
  { name := "1_month", interval := 100, first := 1000, last := 1000, count := 1,
    values := [9] }

/-! # Theorems -/

/-! ## Generic lemmas about the string helpers -/

/-- `l₁.isPrefixOf l₂` stays true when the larger list is extended on the
right. -/
theorem isPrefixOf_append_ext {l₁ l₂ l₃ : List Char} (h : l₁.isPrefixOf l₂ = true) :
    l₁.isPrefixOf (l₂ ++ l₃) = true := by
  induction l₁ generalizing l₂ with
  | nil => simp [List.isPrefixOf]
  | cons a t ih =>
    cases l₂ with
    | nil => simp [List.isPrefixOf] at h
    | cons b t2 =>
      simp only [List.isPrefixOf, List.cons_append, Bool.and_eq_true, beq_iff_eq] at h ⊢
      exact ⟨h.1, ih h.2⟩

theorem strContainsL_of_isPrefixOf {pat l : List Char} (h : pat.isPrefixOf l = true) :
    strContainsL pat l = true := by
  cases l with
  | nil =>
    cases pat with
    | nil => rfl
    | cons a t => simp [List.isPrefixOf] at h
  | cons c rest => simp [strContainsL, h]

theorem strContainsL_append_right {pat b : List Char} (a : List Char)
    (h : strContainsL pat b = true) : strContainsL pat (a ++ b) = true := by
  induction a with
  | nil => simpa using h
  | cons c rest ih => simp [strContainsL, ih]

theorem strContainsL_append_left {pat a : List Char} (b : List Char)
    (h : strContainsL pat a = true) : strContainsL pat (a ++ b) = true := by
  induction a with
  | nil =>
    cases pat with
    | nil =>
      cases b with
      | nil => rfl
      | cons c rest => simp [strContainsL, List.isPrefixOf]
    | cons p t => simp [strContainsL, List.isEmpty] at h
  | cons c rest ih =>
    simp only [strContainsL, Bool.or_eq_true, List.cons_append] at h ⊢
    rcases h with h | h
    · exact Or.inl (isPrefixOf_append_ext h)
    · exact Or.inr (ih h)

theorem string_data_append (a b : String) : (a ++ b).data = a.data ++ b.data := by
  cases a; cases b; rfl

theorem strContains_append_right {pat b : String} (a : String)
    (h : strContains b pat = true) : strContains (a ++ b) pat = true := by
  unfold strContains at h ⊢
  rw [string_data_append]
  exact strContainsL_append_right _ h

theorem strContains_append_left {pat a : String} (b : String)
    (h : strContains a pat = true) : strContains (a ++ b) pat = true := by
  unfold strContains at h ⊢
  rw [string_data_append]
  exact strContainsL_append_left _ h

theorem strContains_of_isPrefixOf {pat s : String} (h : pat.data.isPrefixOf s.data = true) :
    strContains s pat = true :=
  strContainsL_of_isPrefixOf h

/-! ## C4: asymmetric IPv6 presence crashes the whitelist lookup -/

/-- Claim C4 (code evaluation at the failing input): against a relay that
has an IPv6 address, a whitelist entry that agrees on fingerprint, IPv4,
dirport and orport but lists no `ipv6` key drives `is_in_whitelist` into
the branch whose log call reads the still-unbound local `ipv6`, raising
`UnboundLocalError` and aborting the lookup — the claim (and the function's
own docstring) say this asymmetric case is merely a non-match.  The
symmetric cases behave as claimed: a matching IPv6 value is accepted, and a
preceding value-mismatched IPv6 entry (which binds the local) lets the same
asymmetric entry fall through as a non-match. -/
theorem c4_whitelist_unbound_local :
    is_in_whitelist candIPv6 [wlAsymEntry] =
      .error ("UnboundLocalError: local variable ipv6 referenced before assignment") ∧
    wlAsymEntry.id = candIPv6._fpr ∧
    wlAsymEntry.ipv4 = candIPv6.dirip ∧
    wlAsymEntry.dirport = candIPv6.dirport ∧
    wlAsymEntry.orport = candIPv6.orport ∧
    wlAsymEntry.ipv6 = none ∧
    hasIPv6 candIPv6 = true ∧
    is_in_whitelist candIPv6 [wlMatchingEntry] = .ok true ∧
    is_in_whitelist candIPv6 [wlWrongIPv6Entry, wlAsymEntry] = .ok false := by
  refine ⟨by decide, by decide, by decide, by decide, by decide, by decide, by decide,
    by decide, by decide⟩

/-! ## C3: blacklist matching -/

/-- Claim C3 (counterexample): an entry listing IPv4, dirport and orport,
matched against a relay that agrees on IPv4 and orport but differs on
dirport — the claim's IPv4+orport group says "match", the code says
otherwise because the present dirport key shadows the orport check. -/
theorem c3_counterexample :
    blacklistEntryMatches relayOtherDirport bEntryFull = false ∧
    blacklistClaimSpec relayOtherDirport bEntryFull = true := by
  constructor <;> decide

/-- Claim C3 as amended: the relay matches iff the fingerprint matches, or
the IPv4 matches together with the entry's dirport when it has one —
otherwise with the entry's orport when it has one, otherwise
unconditionally — or both sides have IPv6, the values agree, and the
entry's dirport (when present) agrees. -/
theorem c3_amended (c : Candidate) (e : BlacklistEntry) :
    blacklistEntryMatches c e = blacklistAmendedSpec c e := by
  unfold blacklistEntryMatches blacklistAmendedSpec blacklistEntryKeys blacklistLoopBody
  rcases hid : e.id with _ | i <;>
  rcases hv4 : e.ipv4 with _ | a4 <;>
  rcases hdp : e.dirport with _ | dp <;>
  rcases hop : e.orport with _ | op <;>
  rcases hv6 : e.ipv6 with _ | a6 <;>
  rcases hh : hasIPv6 c <;>
  simp [hid, hv4, hdp, hop, hv6, hh] <;>
  by_cases h2 : a4 = c.dirip <;>
  simp [h2, Bool.or_assoc]

/-! ## C6: the IPv6 validator -/

/-- The group loop of the validator, characterised without the
`found_ipv4` flag: all groups but the last must match the regex, and the
last must match it or be an embedded IPv4 literal. -/
theorem checkGroups_false_eq (gs : List (List Char)) :
    checkGroups false gs = (gs.dropLast.all looseHexGroup &&
      (looseHexGroup (gs.getLastD []) || is_valid_ipv4_chars (gs.getLastD []))) := by
  induction gs with
  | nil => rfl
  | cons g rest ih =>
    cases rest with
    | nil =>
      by_cases hg : looseHexGroup g <;>
      by_cases h4 : is_valid_ipv4_chars g <;>
      simp [checkGroups, hg, h4]
    | cons g2 rest2 =>
      by_cases hg : looseHexGroup g
      · have e1 : checkGroups false (g :: g2 :: rest2) = checkGroups false (g2 :: rest2) := by
          simp [checkGroups, hg]
        rw [e1, ih]
        simp [hg]
      · by_cases h4 : is_valid_ipv4_chars g <;>
        simp [checkGroups, hg, h4]

/-- Claim C6 (counterexample): the code accepts `"[G::1]"` — the group
`G` matches the source's `[0-9a-fA-f]` character class although `G` is not
a hexadecimal digit — while the claim's characterisation rejects it. -/
theorem c6_counterexample :
    is_valid_ipv6_address ("[G::1]") = true ∧ ipv6ClaimSpec ("[G::1]") = false := by
  constructor <;> decide

/-- Claim C6 as amended: the validator accepts a string iff, after dropping
the first and last character unconditionally, there are at most 7 colons,
either exactly 7 colons or a `::` occurrence, at most one `::` occurrence
and no `:::` substring, every group but the last matches `[0-9a-fA-f]{0,4}`,
and the last group matches it or is a valid embedded IPv4 literal. -/
theorem c6_amended (s : String) : is_valid_ipv6_address s = ipv6CodeSpec s := by
  unfold is_valid_ipv6_address ipv6CodeSpec
  simp only [List.drop_one]
  generalize s.data.tail.dropLast = a
  by_cases h1 : 7 < countChar ':' a <;>
  by_cases h2 : countChar ':' a = 7 <;>
  by_cases h3 : strContainsL [':', ':'] a = true <;>
  by_cases h4 : 1 < countDoubleColon a <;>
  by_cases h5 : strContainsL [':', ':', ':'] a = true <;>
  simp [h1, h2, h3, h4, h5, ← Nat.not_lt, checkGroups_false_eq, Bool.and_assoc]

/-! ## C5: IPv6 derivation never honours the port preference -/

/-- Claim C5 (code evaluation at the failing input): the or-address list
contains `"[bb00::2]:80"`, a valid IPv6 literal on the derived ORPort 80,
which the claim says must be preferred; the code instead returns the first
valid IPv6 address `"[aa00::1]"` (port `"90"`), because its preference loop
compares the string port against the integer ORPort (`pyEqStrInt`), which
is always false in Python 2. -/
theorem c5_code_eval :
    _compute_ipv6addr ["1.2.3.4:80", "[aa00::1]:90", "[bb00::2]:80"] 80 =
      .ok (some ("[aa00::1]"), some ("90")) ∧
    is_valid_ipv6_address ("[bb00::2]") = true ∧
    pyEqStrInt ("80") 80 = false := by
  refine ⟨rfl, by decide, rfl⟩

/-! ## C8: the median-factor computation crashes before sorting -/

/-- Claim C8 (code evaluation at the failing input): on any non-empty
fallback list, `sort_fallbacks_by_cw_to_bw_factor` looks every `Candidate`
up in the fingerprint-keyed dict (`self[x]`), which raises `KeyError`, so
`calculate_measured_bandwidth` never reaches the median-index logic the
claim describes; on an empty list, `fallback_median(True)` returns `None`
and the `.cw_to_bw_factor()` call raises `AttributeError` instead of the
claimed `NoMedianAvailableError`. -/
theorem c8_sort_keyerror :
    calculate_measured_bandwidth [("AAAA", candARaw)] [candARaw] = .error ("KeyError") ∧
    calculate_measured_bandwidth [] [] =
      .error ("AttributeError: NoneType instance has no attribute cw_to_bw_factor") := by
  refine ⟨rfl, rfl⟩

/-! ## C9: the bandwidth estimate is capped by the advertised bandwidth -/

/-- Claim C9: with nonzero advertised bandwidth the estimate is
`min(consensus_weight * median_factor * exit_fraction_if_exit,
advertised_bandwidth)` and hence never exceeds the advertised bandwidth;
with zero advertised bandwidth it is the uncapped product. -/
theorem c9_bandwidth_cap (c : Candidate) (median : ℚ) :
    (c._data.advertised_bandwidth ≠ 0 →
      measured_bandwidth c median =
        min ((c._data.consensus_weight : ℚ) * median *
              (if is_exit c then EXIT_BANDWIDTH_FRACTION else 1))
            (c._data.advertised_bandwidth : ℚ) ∧
      measured_bandwidth c median ≤ (c._data.advertised_bandwidth : ℚ)) ∧
    (c._data.advertised_bandwidth = 0 →
      measured_bandwidth c median =
        (c._data.consensus_weight : ℚ) * median *
          (if is_exit c then EXIT_BANDWIDTH_FRACTION else 1)) := by
  unfold measured_bandwidth
  by_cases hx : is_exit c <;>
  by_cases ha : c._data.advertised_bandwidth = 0 <;>
  simp [hx, ha, EXIT_BANDWIDTH_FRACTION, mul_one, mul_assoc, min_le_right]

/-- Witness for C9 at the specification's example: consensus weight 1000,
median factor 50, advertised bandwidth 40000 give min(50000, 40000). -/
theorem c9_witness :
    candB._data.advertised_bandwidth ≠ 0 ∧
    (measured_bandwidth candB 50 =
        min ((candB._data.consensus_weight : ℚ) * 50 *
              (if is_exit candB then EXIT_BANDWIDTH_FRACTION else 1))
            (candB._data.advertised_bandwidth : ℚ) ∧
      measured_bandwidth candB 50 ≤ (candB._data.advertised_bandwidth : ℚ)) ∧
    measured_bandwidth candB 50 = 40000 :=
  ⟨by decide, (c9_bandwidth_cap candB 50).1 (by decide), by
    have hx : is_exit candB = false := by decide
    have h := ((c9_bandwidth_cap candB 50).1 (by decide)).1
    rw [h, hx]
    have hcw : candB._data.consensus_weight = 1000 := rfl
    have hab : candB._data.advertised_bandwidth = 40000 := rfl
    rw [hcw, hab]
    norm_num⟩

/-! ## C7: history extraction never double-counts overlapping coverage -/

/-- When the walk starts at or below the watermark, every value is emitted
and the final watermark is the oldest timestamp of the period. -/
theorem extractValuesGo_emit_all (now interval : Int) (hi : 0 ≤ interval) :
    ∀ (vs : List Int) (newest ts : Int), ts ≤ newest →
      (extractValuesGo now newest ts interval vs).2 =
        (if vs.isEmpty then newest else ts - ((vs.length : Int) - 1) * interval) := by
  intro vs
  induction vs with
  | nil => intro newest ts h; simp [extractValuesGo]
  | cons v rest ih =>
    intro newest ts h
    simp only [extractValuesGo, if_pos h]
    rw [ih ts (ts - interval) (by linarith)]
    cases rest with
    | nil => simp
    | cons w rest2 =>
      simp only [List.isEmpty, List.length_cons]
      push_cast
      ring_nf

/-- When every timestamp of the period lies strictly above the watermark,
nothing is emitted and the watermark is unchanged. -/
theorem extractValuesGo_skip_all (now interval : Int) (hi : 0 ≤ interval) :
    ∀ (vs : List Int) (newest ts : Int),
      newest < ts - ((vs.length : Int) - 1) * interval →
      extractValuesGo now newest ts interval vs = ([], newest) := by
  intro vs
  induction vs with
  | nil => intro newest ts _; rfl
  | cons v rest ih =>
    intro newest ts h
    have hcast : ((v :: rest).length : Int) - 1 = (rest.length : Int) := by
      simp only [List.length_cons]
      push_cast
      ring
    rw [hcast] at h
    have hmul : 0 ≤ (rest.length : Int) * interval :=
      mul_nonneg (by positivity) hi
    have hts : ¬ ts ≤ newest := by omega
    simp only [extractValuesGo, if_neg hts]
    apply ih
    have e : (ts - interval) - ((rest.length : Int) - 1) * interval =
        ts - (rest.length : Int) * interval := by ring
    rw [e]
    exact h

/-- Claim C7: when a coarse period's entire time coverage lies inside a
finer period's coverage (its oldest timestamp is newer than the fine
period's oldest emitted timestamp), extraction over both periods yields
exactly the fine period's samples: the coarse period contributes nothing. -/
theorem c7_no_double_count (now : Int) (fine coarse : HistPeriod)
    (h1 : 0 < fine.interval) (h2 : fine.interval < coarse.interval)
    (h3 : fine.values ≠ []) (h4 : fine.last ≤ now)
    (h5 : fine.last - ((fine.values.length : Int) - 1) * fine.interval <
          coarse.last - ((coarse.values.length : Int) - 1) * coarse.interval) :
    _extract_generic_history now [fine, coarse] = _extract_generic_history now [fine] := by
  unfold _extract_generic_history
  have hsort : ([fine, coarse].insertionSort (fun a b => a.interval ≤ b.interval)) =
      [fine, coarse] := by
    simp [List.insertionSort, List.orderedInsert, le_of_lt h2]
  have hsort1 : ([fine].insertionSort (fun a b => a.interval ≤ b.interval)) = [fine] := by
    simp [List.insertionSort, List.orderedInsert]
  rw [hsort, hsort1]
  simp only [extractPeriodsGo]
  have hfin : (extractValuesGo now now fine.last fine.interval fine.values.reverse).2 =
      fine.last - ((fine.values.length : Int) - 1) * fine.interval := by
    rw [extractValuesGo_emit_all now fine.interval (le_of_lt h1) _ now fine.last h4]
    simp [h3]
  rw [hfin]
  rw [extractValuesGo_skip_all now coarse.interval (by linarith) _ _ _ (by
    simpa using h5)]
  simp

/-- Witness for C7 on concrete periods: a one-sample monthly period whose
coverage lies inside a three-sample weekly period contributes no samples. -/
theorem c7_witness :
    0 < finePeriod.interval ∧ finePeriod.interval < coarsePeriod.interval ∧
    finePeriod.values ≠ [] ∧ finePeriod.last ≤ 1000 ∧
    finePeriod.last - ((finePeriod.values.length : Int) - 1) * finePeriod.interval <
      coarsePeriod.last - ((coarsePeriod.values.length : Int) - 1) * coarsePeriod.interval ∧
    _extract_generic_history 1000 [finePeriod, coarsePeriod] =
      _extract_generic_history 1000 [finePeriod] :=
  ⟨by decide, by decide, by decide, by decide, by decide,
    c7_no_double_count 1000 finePeriod coarsePeriod (by decide) (by decide) (by decide)
      (by decide) (by decide)⟩

/-! ## C10: fractions start at zero and incomplete uptime data keeps a relay
ineligible -/

/-- `__init__` leaves `_running = _guard = _v2dir = 0` and no `_badexit`
attribute. -/
theorem mkCandidate_ok_init {d : Details} {c : Candidate} (h : mkCandidate d = .ok c) :
    c._running = 0 ∧ c._guard = 0 ∧ c._v2dir = 0 ∧ c._badexit = none := by
  unfold mkCandidate at h
  cases hi : mkCandidateInit d with
  | error e => rw [hi] at h; exact absurd h (by simp [Except.map])
  | ok i =>
    rw [hi] at h
    simp only [Except.map, Except.ok.injEq] at h
    subst h
    exact ⟨rfl, rfl, rfl, rfl⟩

/-- A document missing `flags` or one of the Running/Guard/V2Dir histories
leaves the candidate unchanged. -/
theorem add_uptime_incomplete {u : UptimeDoc} (c : Candidate) (now : Int)
    (h : incompleteUptimeDoc u = true) : add_uptime c now u = c := by
  unfold add_uptime incompleteUptimeDoc at *
  cases hf : u.flags with
  | none => rfl
  | some fl =>
    rw [hf] at h
    cases hr : fl.Running with
    | none => simp [hr]
    | some a =>
      cases hg : fl.Guard with
      | none => simp [hr, hg]
      | some b =>
        cases hv : fl.V2Dir with
        | none => simp [hr, hg, hv]
        | some cc => simp [hr, hg, hv] at h

/-- A candidate whose running fraction is zero is rejected by the
eligibility predicate whenever the running cutoff is strictly positive; no
later check (in particular not the `_badexit` attribute access) is
reached in a way that could make it eligible. -/
theorem is_candidateGen_running_zero (stable_cutoff : Int)
    (cutR cutV cutG pbe : ℚ) (c : Candidate) (hr : c._running = 0) (hpos : 0 < cutR) :
    is_candidateGen stable_cutoff cutR cutV cutG pbe c = .ok false := by
  unfold is_candidateGen
  by_cases h1 : (PERFORM_IPV4_DIRPORT_CHECKS || PERFORM_IPV6_DIRPORT_CHECKS) && !(is_running c)
  · simp [h1]
  · have h3 : c._running < cutR := by rw [hr]; exact hpos
    by_cases h2 : stable_cutoff < c._data.last_changed_address_or_port <;>
    simp [h1, h2, h3]

/-- Claim C10: after ingestion the running, guard and v2dir fractions are 0
and `_badexit` is unset; folding in any sequence of uptime documents that
each lack `flags` or one of the Running/Guard/V2Dir histories leaves them
so; and such a relay is never eligible when the running cutoff is strictly
positive. -/
theorem c10_incomplete_uptime_ineligible (d : Details) (c : Candidate)
    (now stable_cutoff : Int) (docs : List UptimeDoc) (cutR cutV cutG pbe : ℚ)
    (hmk : mkCandidate d = .ok c)
    (hdocs : ∀ u ∈ docs, incompleteUptimeDoc u = true)
    (hpos : 0 < cutR) :
    ((docs.foldl (fun acc u => add_uptime acc now u) c)._running = 0 ∧
     (docs.foldl (fun acc u => add_uptime acc now u) c)._guard = 0 ∧
     (docs.foldl (fun acc u => add_uptime acc now u) c)._v2dir = 0 ∧
     (docs.foldl (fun acc u => add_uptime acc now u) c)._badexit = none) ∧
    is_candidateGen stable_cutoff cutR cutV cutG pbe
      (docs.foldl (fun acc u => add_uptime acc now u) c) = .ok false := by
  have hfold : docs.foldl (fun acc u => add_uptime acc now u) c = c := by
    induction docs with
    | nil => rfl
    | cons u rest ih =>
      simp only [List.foldl_cons]
      rw [add_uptime_incomplete c now (hdocs u (List.mem_cons_self u rest))]
      exact ih (fun v hv => hdocs v (List.mem_cons_of_mem u hv))
  rw [hfold]
  obtain ⟨h1, h2, h3, h4⟩ := mkCandidate_ok_init hmk
  exact ⟨⟨h1, h2, h3, h4⟩, is_candidateGen_running_zero stable_cutoff cutR cutV cutG pbe c h1 hpos⟩

/-- Witness for C10: the concrete good relay with a flagless and a
Guard-less uptime document, against the script's 0.95 running cutoff. -/
theorem c10_witness :
    (([docNoFlags, docNoGuard].foldl (fun acc u => add_uptime acc 0 u) goodCandidate)._running = 0 ∧
     ([docNoFlags, docNoGuard].foldl (fun acc u => add_uptime acc 0 u) goodCandidate)._guard = 0 ∧
     ([docNoFlags, docNoGuard].foldl (fun acc u => add_uptime acc 0 u) goodCandidate)._v2dir = 0 ∧
     ([docNoFlags, docNoGuard].foldl (fun acc u => add_uptime acc 0 u) goodCandidate)._badexit = none) ∧
    is_candidateGen 1000 CUTOFF_RUNNING CUTOFF_V2DIR CUTOFF_GUARD PERMITTED_BADEXIT
      ([docNoFlags, docNoGuard].foldl (fun acc u => add_uptime acc 0 u) goodCandidate) =
      .ok false :=
  c10_incomplete_uptime_ineligible goodDetails goodCandidate 0 1000
    [docNoFlags, docNoGuard] CUTOFF_RUNNING CUTOFF_V2DIR CUTOFF_GUARD PERMITTED_BADEXIT
    (by decide) (by decide) (by with_unfolding_all decide)

/-! ## C1: per-relay ingestion failures abort the whole details loop -/

theorem foldlM_except_append {α β : Type} (f : β → α → Except String β) (b : β)
    (as bs : List α) :
    List.foldlM f b (as ++ bs) =
      (List.foldlM f b as) >>= fun m => List.foldlM f m bs := by
  induction as generalizing b with
  | nil => simp
  | cons a t ih =>
    simp only [List.cons_append, List.foldlM_cons]
    cases f b a with
    | error e => rfl
    | ok b2 => simp [ih b2]

/-- Helper: `Except.isOk` as a plain boolean. -/
def isOkE {ε α : Type} : Except ε α → Bool
  | .ok _ => true
  | .error _ => false

/-- Claim C1 (counterexample): a details list holding a record with a
`dir_address` but no fingerprint followed by a fully valid record.  The
claim says only the bad relay is dropped and the rest are processed; the
code raises on the bad record and the whole details loop aborts, so the
valid relay — accepted when presented alone — is never ingested. -/
theorem c1_counterexample :
    add_details_relays [noFprDetails, goodDetails] =
      .error ("Document has no fingerprint field.") ∧
    isOkE (add_details_relays [goodDetails]) = true := by
  refine ⟨by decide, by decide⟩

/-- Claim C1 as amended: a record without a `dir_address` key is skipped and
processing continues with the remaining relays; any other per-relay
ingestion failure (missing required field, unresolvable onion-routing port,
or any other exception from the constructor) propagates out of the details
loop and aborts the run, dropping all unprocessed relays. -/
theorem c1_amended :
    (∀ (va vb : List Details) (r : Details), r.dir_address = none →
      add_details_relays (va ++ r :: vb) = add_details_relays (va ++ vb)) ∧
    (∀ (va vb : List Details) (r : Details) (d : CandidateDict) (e : String),
      r.dir_address ≠ none → mkCandidate r = .error e →
      add_details_relays va = .ok d →
      add_details_relays (va ++ r :: vb) = .error e) := by
  constructor
  · intro va vb r hr
    unfold add_details_relays
    rw [foldlM_except_append, foldlM_except_append]
    cases List.foldlM _add_relay [] va with
    | error e => rfl
    | ok d =>
      simp only [bind, Except.bind]
      have hstep : _add_relay d r = .ok d := by
        unfold _add_relay
        simp [hr]
      simp only [List.foldlM_cons, hstep, bind, Except.bind]
  · intro va vb r d e hr hmk hok
    unfold add_details_relays at hok ⊢
    rw [foldlM_except_append, hok]
    simp only [bind, Except.bind, List.foldlM_cons]
    have hstep : _add_relay d r = .error e := by
      unfold _add_relay
      rw [if_neg (by simpa [Option.isNone_iff_eq_none] using hr)]
      rw [hmk]
      rfl
    rw [hstep]

/-- Witness for C1 (amended): skipping a record without `dir_address`, and
aborting on the fingerprint-less record even with a valid relay behind
it. -/
theorem c1_witness :
    add_details_relays ([] ++ { noFprDetails with dir_address := none } :: [goodDetails]) =
      add_details_relays ([] ++ [goodDetails]) ∧
    add_details_relays ([] ++ noFprDetails :: [goodDetails]) =
      .error ("Document has no fingerprint field.") :=
  ⟨c1_amended.1 [] [goodDetails] { noFprDetails with dir_address := none } (by decide),
   c1_amended.2 [] [goodDetails] noFprDetails [] ("Document has no fingerprint field.")
     (by decide) (by decide) (by decide)⟩

/-! ## C2: a low final count yields a C `#error` line, not a Python error -/

/-- Any string ending in the low-count suffix contains the `#error`
directive. -/
theorem strContains_lowCountSuffix (pre : String) (n : Int) :
    strContains (pre ++ lowCountSuffix n) ("#error Fallback Count") = true := by
  apply strContains_append_right
  unfold lowCountSuffix
  apply strContains_append_right
  apply strContains_of_isPrefixOf
  rw [string_data_append]
  exact isPrefixOf_append_ext (by decide)

/-- Claim C2 (counterexample): a run whose final count is 1 (< 100).
`summarise_fallbacks` returns normally — no exception of any kind, hence no
`InsufficientSelectionError` — and the output loop still emits the
selection. -/
theorem c2_counterexample :
    isOkE (summarise_fallbacks [candA] 1 5 1 100) = true ∧
    output_fallback_lines [candA] (fun _ => true) 100 ≠ [] := by
  constructor
  · with_unfolding_all decide
  · with_unfolding_all decide

/-- Claim C2 as amended: when the final count is positive but below
`MIN_FALLBACK_COUNT`, `summarise_fallbacks` returns a summary string that
embeds a C `#error` directive (so the generated file fails C compilation),
the script itself raises nothing, and the output loop still emits the
partial selection. -/
theorem c2_amended (fbs : List Candidate) (ec gc tc mc : Int) (dl : Candidate → Bool)
    (hne : fbs ≠ [])
    (hlow : (fbs.length : Int) < MIN_FALLBACK_COUNT)
    (hmeas : ∀ f ∈ fbs, f._data.measured_bandwidth.isSome = true) :
    (∃ s, summarise_fallbacks fbs ec gc tc mc = .ok s ∧
          strContains s ("#error Fallback Count") = true) ∧
    output_fallback_lines fbs dl mc ≠ [] := by
  constructor
  · have hlast : ∃ l, fbs.getLast? = some l := by
      cases fbs with
      | nil => exact absurd rfl hne
      | cons x rest => exact ⟨(x :: rest).getLast (by simp), List.getLast?_eq_getLast _ _⟩
    obtain ⟨lastC, hlastC⟩ := hlast
    have hhead : ∃ h, fbs.head? = some h := by
      cases fbs with
      | nil => exact absurd rfl hne
      | cons x rest => exact ⟨x, rfl⟩
    obtain ⟨headC, hheadC⟩ := hhead
    have hlmem : lastC ∈ fbs := by
      obtain ⟨hnn, heq⟩ := List.mem_getLast?_eq_getLast (Option.mem_def.mpr hlastC)
      rw [heq]
      exact List.getLast_mem hnn
    have hhmem : headC ∈ fbs := List.mem_of_mem_head? (Option.mem_def.mpr hheadC)
    obtain ⟨q1, hq1⟩ := Option.isSome_iff_exists.mp (hmeas lastC hlmem)
    obtain ⟨q2, hq2⟩ := Option.isSome_iff_exists.mp (hmeas headC hhmem)
    unfold summarise_fallbacks
    simp only [attrData, fallback_min, fallback_max, keyMeasuredBandwidth, hlastC, hheadC,
      hq1, hq2, bind, Except.bind, if_pos hlow]
    exact ⟨_, rfl, strContains_lowCountSuffix _ _⟩
  · cases fbs with
    | nil => exact absurd rfl hne
    | cons x rest =>
      unfold output_fallback_lines outputFallbackLines
      simp

/-- Witness for C2 (amended) at the concrete one-relay run. -/
theorem c2_witness :
    (∃ s, summarise_fallbacks [candA] 1 5 1 100 = .ok s ∧
          strContains s ("#error Fallback Count") = true) ∧
    output_fallback_lines [candA] (fun _ => true) 100 ≠ [] :=
  c2_amended [candA] 1 5 1 100 (fun _ => true) (by decide) (by decide) (by decide)

end UpdateFallbackDirs
